import Mathlib

/-!
Shallow embedding of the LeadLens AI client (lead-lens-n2).

Source files embedded here:
* `services/geminiService.ts` — the three request functions
  (`analyzeBusinessImage`, `searchBusinessLeads`, `analyzeBusinessGap`)
  and the pure prompt helper `getPitchInstructions`;
* `App.tsx` — the submit handlers (`handleAnalyzeImage`,
  `handleSearchLeads`, `handleSelfAudit`), the UI enabling conditions of
  the submit entry points, and the speech-recognition `onresult` handler
  inside `toggleListening`;
* `components/AnalysisResult.tsx` — the view-selection logic of the
  `AnalysisResult` component and `handleExportCSV`.

The network call to the vendor API and the file read are modelled by
their outcome: either a vendor response value or a thrown JavaScript
value.  JavaScript strings are Lean `String`s; `null`/`undefined` are
`Option`; JavaScript truthiness of a string is "non-empty".
-/

/-- `types.ts`: `PitchTone = 'STANDARD' | 'PAIN_FOCUSED'`. -/
inductive PitchTone
  | STANDARD
  | PAIN_FOCUSED
deriving DecidableEq, Repr

/-- `types.ts`: `PitchLength = 'SHORT' | 'STANDARD'`. -/
inductive PitchLength
  | SHORT
  | STANDARD
deriving DecidableEq, Repr

/-- `types.ts`: `AppMode = 'IMAGE' | 'SEARCH' | 'SELF_AUDIT'`. -/
inductive AppMode
  | IMAGE
  | SEARCH
  | SELF_AUDIT
deriving DecidableEq, Repr

/-- `types.ts`: the ten `OutputLanguage` literals. -/
inductive OutputLanguage
  | English
  | Spanish
  | French
  | PortuguesePortugal
  | PortugueseBrazil
  | German
  | Italian
  | Dutch
  | Chinese
  | Japanese
deriving DecidableEq, Repr

/-- The length instruction appended when `length === 'SHORT'`
(`geminiService.ts` line 45). -/
def shortLengthInstruction : String :=
  "\n- **Length:** Keep the pitch very concise (under 100 words). Focus on punchy sentences."

/-- The length instruction appended otherwise (`geminiService.ts` line 47). -/
def standardLengthInstruction : String :=
  "\n- **Length:** Standard email length (150-200 words)."

/-- The strategy block appended when `tone === 'PAIN_FOCUSED'`
(`geminiService.ts` lines 52-57, a template literal). -/
def painFocusedBlock : String :=
  "\n    \n**Strategy: High-Impact / Pain-Focused**\n    - **Immediate Focus on Pain/Cost:** Start by directly appealing to the prospect's lost time, lost money, or lost customers. Do not start with \"I hope you are well\" or generic intros. Jump straight to the problem.\n    - **Extreme Personalization (Proof at a Glance):** Use a specific detail observed in the analysis (e.g., a specific product on the shelf, the specific design of the menu, the awards on the wall) as immediate proof this isn't spam.\n    - **Low-Risk CTA (Micro-Commitment):** Do NOT ask for a \"10-minute chat\". Instead, offer immediate exit value (e.g., \"Can I send you a 30-second video showing how N2 Digital fixes this?\" or \"Reply 'yes' and I'll send the mockup\").\n    "

/-- The strategy block appended otherwise (`geminiService.ts` lines 59-64). -/
def standardBlock : String :=
  "\n    \n**Strategy: Standard Professional**\n    - **Tone:** Friendly, professional, and helpful.\n    - **Approach:** Highlight the benefits of modernization with N2 Digital.\n    - **CTA:** Suggest a brief consultation or call with the N2 Digital team.\n    "

/-- `geminiService.ts` lines 40-68: `getPitchInstructions(tone, length)`.
Builds `instructions` by appending a length instruction and a
tone/strategy block. -/
def getPitchInstructions (tone : PitchTone) (len : PitchLength) : String :=
  let instructions := ""
  let instructions := instructions ++
    (if len = PitchLength.SHORT then shortLengthInstruction
     else standardLengthInstruction)
  let instructions := instructions ++
    (if tone = PitchTone.PAIN_FOCUSED then painFocusedBlock
     else standardBlock)
  instructions

/-- `pat` occurs as a contiguous substring of `s` (on the underlying
character lists). -/
def containsStr (s pat : String) : Bool :=
  s.data.tails.any (fun t => pat.data.isPrefixOf t)

set_option maxRecDepth 100000

/-- A value thrown by JavaScript code: either an `Error` carrying a
message, or any other value. -/
inductive Thrown
  | error (message : String)
  | other
deriving DecidableEq, Repr

/-- The `inlineData` part produced by `fileToGenerativePart`
(`geminiService.ts` lines 16-33). -/
structure InlinePart where
  data : String
  mimeType : String
deriving DecidableEq, Repr

/-- A map-place record inside a grounding chunk
(`chunk.maps` with `title`, `address`, `googleMapsUriString`). -/
structure MapsData where
  title : Option String
  address : Option String
  googleMapsUriString : String
deriving DecidableEq, Repr

/-- A web record inside a grounding chunk (`chunk.web`). -/
structure WebData where
  uri : String
  title : Option String
deriving DecidableEq, Repr

/-- One element of `groundingMetadata.groundingChunks`: it may carry a
`maps` record, a `web` record, both, or neither. -/
structure GroundingChunk where
  maps : Option MapsData
  web : Option WebData
deriving DecidableEq, Repr

/-- The grounding metadata object attached to a vendor candidate; its
`groundingChunks` field may be absent. -/
structure GroundingMetadata where
  groundingChunks : Option (List GroundingChunk)
deriving DecidableEq, Repr

/-- One candidate of the vendor response; `groundingMetadata` may be
absent. -/
structure Candidate where
  groundingMetadata : Option GroundingMetadata
deriving DecidableEq, Repr

/-- The vendor response as read by the request functions: `response.text`
(possibly absent or empty) and `response.candidates` (possibly absent). -/
structure VendorResponse where
  text : Option String
  candidates : Option (List Candidate)
deriving DecidableEq, Repr

/-- `geminiService.ts` line 35: the uniform response shape
`{ text: string; groundingMetadata: any | null }`. -/
structure AnalysisResponse where
  text : String
  groundingMetadata : Option GroundingMetadata
deriving DecidableEq, Repr

/-- JavaScript `s || fallback` on an optional string: the fallback is
used when the string is absent or empty (falsy). -/
def jsOrString (s : Option String) (fallback : String) : String :=
  match s with
  | none => fallback
  | some t => if t = "" then fallback else t

/-- `response.candidates?.[0]?.groundingMetadata || null`
(`geminiService.ts` line 192). -/
def firstCandidateGrounding (r : VendorResponse) : Option GroundingMetadata :=
  (r.candidates.bind List.head?).bind Candidate.groundingMetadata

/-- `geminiService.ts` lines 73-144: `analyzeBusinessImage`.  The file
read (`fileToGenerativePart`) and the network call are modelled by their
outcomes; any thrown value is caught and re-thrown as a single `Error`
(`.error` of the returned `Except` carries that error's message). -/
def analyzeBusinessImage
    (imageRead : Except Thrown InlinePart)
    (vendor : InlinePart → Except Thrown VendorResponse) :
    Except String AnalysisResponse :=
  match imageRead with
  | .error t =>
    .error (match t with
      | .error m => "Analysis failed: " ++ m
      | .other => "An unexpected error occurred during analysis.")
  | .ok part =>
    match vendor part with
    | .error t =>
      .error (match t with
        | .error m => "Analysis failed: " ++ m
        | .other => "An unexpected error occurred during analysis.")
    | .ok r =>
      .ok { text := jsOrString r.text "No analysis generated. Please try again.",
            groundingMetadata := none }

/-- `geminiService.ts` lines 149-201: `searchBusinessLeads`, with the
network call modelled by its outcome. -/
def searchBusinessLeads (vendor : Except Thrown VendorResponse) :
    Except String AnalysisResponse :=
  match vendor with
  | .error t =>
    .error (match t with
      | .error m => "Search failed: " ++ m
      | .other => "An unexpected error occurred during search.")
  | .ok r =>
    .ok { text := jsOrString r.text "No leads found. Please try a different query.",
          groundingMetadata := firstCandidateGrounding r }

/-- `geminiService.ts` lines 206-265: `analyzeBusinessGap`, with the
network call modelled by its outcome. -/
def analyzeBusinessGap (vendor : Except Thrown VendorResponse) :
    Except String AnalysisResponse :=
  match vendor with
  | .error t =>
    .error (match t with
      | .error m => "Audit failed: " ++ m
      | .other => "An unexpected error occurred during audit.")
  | .ok r =>
    .ok { text := jsOrString r.text "No analysis generated. Please try again.",
          groundingMetadata := none }

/-- A browser `File` value (only the fields the code reads). -/
structure JSFile where
  name : String
  type : String
deriving DecidableEq, Repr

/-- `types.ts`: `ImageFile = { file: File; previewUrl: string }`. -/
structure ImageFile where
  file : JSFile
  previewUrl : String
deriving DecidableEq, Repr

/-- `types.ts`: `AnalysisState`. -/
structure AnalysisState where
  isLoading : Bool
  result : Option String
  groundingMetadata : Option GroundingMetadata
  error : Option String
deriving DecidableEq, Repr

/-- The `App` component's state (`App.tsx` lines 9-29): one `useState`
field per hook, plus whether `process.env.API_KEY` is set. -/
structure AppState where
  mode : AppMode
  selectedImage : Option ImageFile
  businessName : String
  searchQuery : String
  auditDescription : String
  pitchTone : PitchTone
  pitchLength : PitchLength
  language : OutputLanguage
  analysisState : AnalysisState
  apiKeyPresent : Bool
deriving DecidableEq, Repr

/-- A request dispatched to the service layer, recording exactly the
arguments the `App` handlers pass (`App.tsx` lines 52, 74, 96). -/
inductive Request
  | analyzeImage (file : JSFile) (businessName : String)
      (tone : PitchTone) (len : PitchLength) (language : OutputLanguage)
  | searchLeads (query : String)
      (tone : PitchTone) (len : PitchLength) (language : OutputLanguage)
  | auditGap (description : String) (language : OutputLanguage)
deriving DecidableEq, Repr

/-- The state set at the start of every request
(`App.tsx` lines 49, 71, 93). -/
def loadingAnalysisState : AnalysisState :=
  { isLoading := true, result := none, groundingMetadata := none, error := none }

/-- JavaScript `s.trim()`: strip leading and trailing whitespace.
(Defined over the character list because core `String.trim` is
well-founded recursion and does not reduce definitionally.) -/
def jsTrim (s : String) : String :=
  ⟨((s.data.dropWhile Char.isWhitespace).reverse.dropWhile
      Char.isWhitespace).reverse⟩

/-- The validation message of `handleAnalyzeImage` (`App.tsx` line 45). -/
def businessNameValidationMsg : String :=
  "Please enter a valid Business Name before proceeding."

/-- `App.tsx` lines 40-49: the synchronous part of `handleAnalyzeImage`
up to the dispatch of the request — early return on no image, validation
of the business name (which updates only the `error` field), then the
loading state and the request. -/
def handleAnalyzeImage (s : AppState) : AppState × Option Request :=
  match s.selectedImage with
  | none => (s, none)
  | some img =>
    if jsTrim s.businessName = "" then
      ({ s with analysisState :=
          { s.analysisState with error := some businessNameValidationMsg } }, none)
    else
      ({ s with analysisState := loadingAnalysisState },
       some (.analyzeImage img.file (jsTrim s.businessName)
         s.pitchTone s.pitchLength s.language))

/-- `App.tsx` lines 68-71: the synchronous part of `handleSearchLeads`
up to the dispatch — early return on a blank query only. -/
def handleSearchLeads (s : AppState) : AppState × Option Request :=
  if jsTrim s.searchQuery = "" then (s, none)
  else
    ({ s with analysisState := loadingAnalysisState },
     some (.searchLeads s.searchQuery s.pitchTone s.pitchLength s.language))

/-- `App.tsx` lines 90-93: the synchronous part of `handleSelfAudit`
up to the dispatch — early return on a blank description only. -/
def handleSelfAudit (s : AppState) : AppState × Option Request :=
  if jsTrim s.auditDescription = "" then (s, none)
  else
    ({ s with analysisState := loadingAnalysisState },
     some (.auditGap s.auditDescription s.language))

/-- `App.tsx` lines 51-65 (and the analogous blocks of the other two
handlers): how a handler finishes.  On success the response is stored;
on failure the caught value — always an `Error` thrown by the service,
whose message is the `.error` payload — has its message stored, with
`isLoading` false and `result`/`groundingMetadata` reset. -/
def handlerFinish (s : AppState) (outcome : Except String AnalysisResponse) :
    AppState :=
  match outcome with
  | .ok resp =>
    { s with analysisState :=
        { isLoading := false, result := some resp.text,
          groundingMetadata := resp.groundingMetadata, error := none } }
  | .error msg =>
    { s with analysisState :=
        { isLoading := false, result := none,
          groundingMetadata := none, error := some msg } }

/-- The submit entry points of the UI: the three submit buttons and the
Enter key in the search input (`App.tsx` lines 361-363, 400, 464-466,
548-550). -/
inductive SubmitEvent
  | analyzeClick
  | searchClick
  | searchEnter
  | auditClick
deriving DecidableEq, Repr

/-- Whether a submit entry point can fire in state `s`: the element must
be rendered (its mode active) and must not carry the `disabled`
attribute — a disabled button receives no click event and a disabled
input receives no keydown event.  The `disabled` expressions are taken
verbatim from the JSX: the three buttons (`App.tsx` lines 363, 466, 550)
and the search input (`App.tsx` line 401, `disabled={isAnalyzing}`). -/
def submitEnabled (s : AppState) : SubmitEvent → Bool
  | .analyzeClick =>
    s.mode == AppMode.IMAGE &&
    !(s.selectedImage.isNone || jsTrim s.businessName == "" ||
      s.analysisState.isLoading || !s.apiKeyPresent)
  | .searchClick =>
    s.mode == AppMode.SEARCH &&
    !(jsTrim s.searchQuery == "" || s.analysisState.isLoading || !s.apiKeyPresent)
  | .searchEnter =>
    s.mode == AppMode.SEARCH && !s.analysisState.isLoading
  | .auditClick =>
    s.mode == AppMode.SELF_AUDIT &&
    !(jsTrim s.auditDescription == "" || s.analysisState.isLoading || !s.apiKeyPresent)

/-- One submit interaction: if the entry point can fire, its handler
runs (the Enter key of the search input calls `handleSearchLeads`,
`App.tsx` line 400); otherwise nothing happens and no request is
dispatched. -/
def uiSubmit (s : AppState) (e : SubmitEvent) : AppState × Option Request :=
  if submitEnabled s e then
    match e with
    | .analyzeClick => handleAnalyzeImage s
    | .searchClick => handleSearchLeads s
    | .searchEnter => handleSearchLeads s
    | .auditClick => handleSelfAudit s
  else (s, none)


/-- JavaScript truthiness of a `string | null` value: `null`/absent and
the empty string are falsy. -/
def strTruthy : Option String → Bool
  | none => false
  | some s => !(s == "")

/-- The four views the `AnalysisResult` component can return. -/
inductive RenderView
  | loading
  | errorView
  | placeholder
  | resultView
deriving DecidableEq, Repr

/-- `AnalysisResult.tsx` lines 356-433 (the early returns of the
component body): the loading view when `isLoading`, else the error view
when `error` is truthy (`if (error)`), else the placeholder when
`result` is falsy (`if (!result)`), else the result view. -/
def analysisResultView (isLoading : Bool) (error : Option String)
    (result : Option String) : RenderView :=
  if isLoading then RenderView.loading
  else if strTruthy error then RenderView.errorView
  else if !(strTruthy result) then RenderView.placeholder
  else RenderView.resultView

/-- `(s).replace(/"/g, '""')`: double every double-quote character.
(Defined over the character list because core `String.replace` is
well-founded recursion and does not reduce definitionally; for a
single-character pattern the two agree.) -/
def doubleQuotes (s : String) : String :=
  ⟨s.data.foldr (fun c acc => if c = '"' then '"' :: '"' :: acc else c :: acc) []⟩

/-- `"${(s).replace(/"/g, '""')}"`: wrap in double quotes, doubling every
embedded double quote. -/
def csvEscape (s : String) : String :=
  "\"" ++ doubleQuotes s ++ "\""

/-- The template string `${mode}` of an `AppMode`. -/
def modeToString : AppMode → String
  | AppMode.IMAGE => "IMAGE"
  | AppMode.SEARCH => "SEARCH"
  | AppMode.SELF_AUDIT => "SELF_AUDIT"

/-- `groundingMetadata?.groundingChunks?.some((c) => c.maps)`
(`AnalysisResult.tsx` line 197). -/
def hasMapData (gm : Option GroundingMetadata) : Bool :=
  match gm with
  | none => false
  | some g =>
    match g.groundingChunks with
    | none => false
    | some cs => cs.any (fun c => c.maps.isSome)

/-- One CSV row of the lead-list export (`AnalysisResult.tsx` lines
204-209): quoted title, quoted address (each defaulted to the empty
string when absent), and the raw maps link, joined by commas. -/
def mapChunkRow (m : MapsData) : String :=
  String.intercalate ","
    [csvEscape (m.title.getD ""), csvEscape (m.address.getD ""),
     m.googleMapsUriString]

/-- `AnalysisResult.tsx` lines 193-218: `handleExportCSV` up to the
creation of the blob — `none` when the early return fires
(`if (!result) return;`), otherwise the CSV string that is exported.
`nowISO` stands for `new Date().toISOString()`. -/
def handleExportCSV (mode : AppMode) (gm : Option GroundingMetadata)
    (result : Option String) (nowISO : String) : Option String :=
  match result with
  | none => none
  | some r =>
    if r = "" then none
    else some (
      if mode == AppMode.SEARCH && hasMapData gm then
        ((gm.bind GroundingMetadata.groundingChunks).getD []).foldl
          (fun acc c =>
            match c.maps with
            | some m => acc ++ mapChunkRow m ++ "\n"
            | none => acc)
          "Business Name,Address,Google Maps Link\n"
      else
        "Date,Type,Analysis Content\n" ++ nowISO ++ "," ++ modeToString mode
          ++ "," ++ csvEscape r)

/-- JavaScript `s.endsWith(' ')` for a single-character suffix: the last
character equals it.  (Core `String.endsWith` is built on well-founded
recursion and does not reduce definitionally.) -/
def endsWithChar (s : String) (c : Char) : Bool :=
  s.data.getLast? == some c

/-- One entry of the `SpeechRecognitionResultList`: whether the result
is final, and the transcript of its first alternative
(`event.results[i][0].transcript`). -/
structure SpeechResult where
  isFinal : Bool
  transcript : String
deriving DecidableEq, Repr

/-- The accumulation loop of `recognition.onresult` (`App.tsx` lines
164-170) applied to the slice `event.results[resultIndex..]`, final
results only: the `finalTranscript` accumulator. -/
def finalTranscriptOf (results : List SpeechResult) : String :=
  results.foldl (fun acc r => if r.isFinal then acc ++ r.transcript else acc) ""

/-- The same loop's `interimTranscript` accumulator (non-final results),
which `onresult` never uses afterwards. -/
def interimTranscriptOf (results : List SpeechResult) : String :=
  results.foldl (fun acc r => if r.isFinal then acc else acc ++ r.transcript) ""

/-- `App.tsx` lines 160-179: the new `auditDescription` produced by
`recognition.onresult` from the previous value.  `if (finalTranscript)`
is string truthiness; the separator is a single space when the previous
text is non-empty and does not already end in a space (line 175). -/
def speechOnResult (prev : String) (resultIndex : Nat)
    (results : List SpeechResult) : String :=
  let finalTranscript := finalTranscriptOf (results.drop resultIndex)
  if finalTranscript = "" then prev
  else
    let separator :=
      if decide (0 < prev.length) && !(endsWithChar prev ' ') then " " else ""
    prev ++ separator ++ finalTranscript

/-!  Sample values used by witnesses and counterexamples. -/

/-- A sample map-place record. -/
def sampleMaps : MapsData :=
  { title := some "Joe's Pizza", address := some "1 Main St, Brooklyn",
    googleMapsUriString := "https://maps.google.com/?cid=1" }

/-- A grounding chunk carrying `sampleMaps`. -/
def sampleMapChunk : GroundingChunk := { maps := some sampleMaps, web := none }

/-- Grounding metadata with a single map chunk. -/
def sampleGroundingMetadata : GroundingMetadata :=
  { groundingChunks := some [sampleMapChunk] }

/-- A vendor candidate carrying `sampleGroundingMetadata`. -/
def sampleCandidate : Candidate :=
  { groundingMetadata := some sampleGroundingMetadata }

/-- A successful vendor response with text and one candidate. -/
def sampleVendorResponse : VendorResponse :=
  { text := some "### Lead Candidates", candidates := some [sampleCandidate] }

/-- A sample selected image. -/
def sampleImageFile : ImageFile :=
  { file := { name := "store.jpg", type := "image/jpeg" }, previewUrl := "blob:1" }

/-- The idle analysis state (`App.tsx` lines 24-29). -/
def baseAnalysisState : AnalysisState :=
  { isLoading := false, result := none, groundingMetadata := none, error := none }

/-- A base application state with empty inputs and an API key present. -/
def baseAppState : AppState :=
  { mode := AppMode.IMAGE, selectedImage := none, businessName := "",
    searchQuery := "", auditDescription := "",
    pitchTone := PitchTone.STANDARD, pitchLength := PitchLength.STANDARD,
    language := OutputLanguage.English,
    analysisState := baseAnalysisState, apiKeyPresent := true }

/-! ## Claims -/

/-- C1: every invocation of a request function that completes without
throwing returns the uniform `AnalysisResponse` record (a text string
plus an optional grounding-metadata field); `analyzeBusinessImage` and
`analyzeBusinessGap` always return `groundingMetadata = none`, while
`searchBusinessLeads` returns the first candidate's grounding metadata
when present and `none` otherwise. -/
theorem uniform_response_grounding :
    (∀ imageRead vendor resp,
        analyzeBusinessImage imageRead vendor = Except.ok resp →
        resp.groundingMetadata = none) ∧
    (∀ vendor resp,
        analyzeBusinessGap vendor = Except.ok resp →
        resp.groundingMetadata = none) ∧
    (∀ r resp,
        searchBusinessLeads (Except.ok r) = Except.ok resp →
        ((∃ c rest, r.candidates = some (c :: rest) ∧
            resp.groundingMetadata = c.groundingMetadata) ∨
         ((r.candidates = none ∨ r.candidates = some []) ∧
            resp.groundingMetadata = none))) := by
  refine ⟨?_, ?_, ?_⟩
  · intro imageRead vendor resp h
    cases imageRead with
    | error t => simp [analyzeBusinessImage] at h
    | ok part =>
      cases hv : vendor part with
      | error t => simp [analyzeBusinessImage, hv] at h
      | ok r =>
        simp [analyzeBusinessImage, hv] at h
        subst h
        rfl
  · intro vendor resp h
    cases vendor with
    | error t => simp [analyzeBusinessGap] at h
    | ok r =>
      simp [analyzeBusinessGap] at h
      subst h
      rfl
  · intro r resp h
    simp [searchBusinessLeads] at h
    subst h
    rcases hc : r.candidates with _ | (_ | ⟨c, rest⟩)
    · exact Or.inr ⟨Or.inl rfl, by simp [firstCandidateGrounding, hc]⟩
    · exact Or.inr ⟨Or.inr rfl, by simp [firstCandidateGrounding, hc]⟩
    · exact Or.inl ⟨c, rest, rfl, by simp [firstCandidateGrounding, hc]⟩

/-- C1 witness: a concrete successful image analysis, with
`groundingMetadata = none`. -/
theorem uniform_response_grounding_witness :
    (AnalysisResponse.mk "No analysis generated. Please try again."
        none).groundingMetadata = none :=
  uniform_response_grounding.1 (Except.ok ⟨"ZGF0YQ==", "image/jpeg"⟩)
    (fun _ => Except.ok { text := none, candidates := none }) _ rfl

/-- C3: every failure inside a request function surfaces as exactly one
`Error` whose message is the original error message behind the
function's prefix when the thrown value was an `Error`, and the
function's fixed fallback message otherwise; the `App` handler then
stores that message with `isLoading` false and `result` and
`groundingMetadata` reset to `null`. -/
theorem failures_surfaced_as_single_message :
    (∀ imageRead vendor m,
        analyzeBusinessImage imageRead vendor = Except.error m →
        ((∃ orig,
            (imageRead = Except.error (Thrown.error orig) ∨
              ∃ p, imageRead = Except.ok p ∧
                vendor p = Except.error (Thrown.error orig)) ∧
            m = "Analysis failed: " ++ orig) ∨
         ((imageRead = Except.error Thrown.other ∨
              ∃ p, imageRead = Except.ok p ∧
                vendor p = Except.error Thrown.other) ∧
            m = "An unexpected error occurred during analysis."))) ∧
    (∀ vendor m,
        searchBusinessLeads vendor = Except.error m →
        ((∃ orig, vendor = Except.error (Thrown.error orig) ∧
            m = "Search failed: " ++ orig) ∨
         (vendor = Except.error Thrown.other ∧
            m = "An unexpected error occurred during search."))) ∧
    (∀ vendor m,
        analyzeBusinessGap vendor = Except.error m →
        ((∃ orig, vendor = Except.error (Thrown.error orig) ∧
            m = "Audit failed: " ++ orig) ∨
         (vendor = Except.error Thrown.other ∧
            m = "An unexpected error occurred during audit."))) ∧
    (∀ s m, (handlerFinish s (Except.error m)).analysisState =
        { isLoading := false, result := none,
          groundingMetadata := none, error := some m }) := by
  refine ⟨?_, ?_, ?_, ?_⟩
  · intro imageRead vendor m h
    cases imageRead with
    | error t =>
      cases t with
      | error orig =>
        simp [analyzeBusinessImage] at h
        exact Or.inl ⟨orig, Or.inl rfl, h.symm⟩
      | other =>
        simp [analyzeBusinessImage] at h
        exact Or.inr ⟨Or.inl rfl, h.symm⟩
    | ok part =>
      cases hv : vendor part with
      | error t =>
        cases t with
        | error orig =>
          simp [analyzeBusinessImage, hv] at h
          exact Or.inl ⟨orig, Or.inr ⟨part, rfl, hv⟩, h.symm⟩
        | other =>
          simp [analyzeBusinessImage, hv] at h
          exact Or.inr ⟨Or.inr ⟨part, rfl, hv⟩, h.symm⟩
      | ok r => simp [analyzeBusinessImage, hv] at h
  · intro vendor m h
    cases vendor with
    | error t =>
      cases t with
      | error orig =>
        simp [searchBusinessLeads] at h
        exact Or.inl ⟨orig, rfl, h.symm⟩
      | other =>
        simp [searchBusinessLeads] at h
        exact Or.inr ⟨rfl, h.symm⟩
    | ok r => simp [searchBusinessLeads] at h
  · intro vendor m h
    cases vendor with
    | error t =>
      cases t with
      | error orig =>
        simp [analyzeBusinessGap] at h
        exact Or.inl ⟨orig, rfl, h.symm⟩
      | other =>
        simp [analyzeBusinessGap] at h
        exact Or.inr ⟨rfl, h.symm⟩
    | ok r => simp [analyzeBusinessGap] at h
  · intro s m
    rfl

/-- C3 witness: a concrete vendor failure in search mode, surfaced with
the `Search failed: ` prefix. -/
theorem failures_surfaced_as_single_message_witness :
    (∃ orig,
        (Except.error (Thrown.error "network down") :
          Except Thrown VendorResponse) = Except.error (Thrown.error orig) ∧
        ("Search failed: network down" : String) = "Search failed: " ++ orig) ∨
    ((Except.error (Thrown.error "network down") :
        Except Thrown VendorResponse) = Except.error Thrown.other ∧
      ("Search failed: network down" : String) =
        "An unexpected error occurred during search.") :=
  failures_surfaced_as_single_message.2.1
    (Except.error (Thrown.error "network down")) "Search failed: network down" rfl

/-- Helper for C9: JavaScript `s || fallback` never yields the empty
string when the fallback is non-empty. -/
theorem jsOrString_ne_empty (o : Option String) (fallback : String)
    (h : fallback ≠ "") : jsOrString o fallback ≠ "" := by
  cases o with
  | none => simpa [jsOrString] using h
  | some t =>
    by_cases ht : t = ""
    · simp [jsOrString, ht]
      exact h
    · simp [jsOrString, ht]

/-- C9: every request function that completes without throwing returns a
non-empty text — an empty or absent vendor text is replaced by the
function's fixed fallback message. -/
theorem response_text_nonempty :
    (∀ imageRead vendor resp,
        analyzeBusinessImage imageRead vendor = Except.ok resp →
        resp.text ≠ "") ∧
    (∀ vendor resp,
        searchBusinessLeads vendor = Except.ok resp →
        resp.text ≠ "") ∧
    (∀ vendor resp,
        analyzeBusinessGap vendor = Except.ok resp →
        resp.text ≠ "") := by
  refine ⟨?_, ?_, ?_⟩
  · intro imageRead vendor resp h
    cases imageRead with
    | error t => simp [analyzeBusinessImage] at h
    | ok part =>
      cases hv : vendor part with
      | error t => simp [analyzeBusinessImage, hv] at h
      | ok r =>
        simp [analyzeBusinessImage, hv] at h
        subst h
        exact jsOrString_ne_empty _ _ (by decide)
  · intro vendor resp h
    cases vendor with
    | error t => simp [searchBusinessLeads] at h
    | ok r =>
      simp [searchBusinessLeads] at h
      subst h
      exact jsOrString_ne_empty _ _ (by decide)
  · intro vendor resp h
    cases vendor with
    | error t => simp [analyzeBusinessGap] at h
    | ok r =>
      simp [analyzeBusinessGap] at h
      subst h
      exact jsOrString_ne_empty _ _ (by decide)

/-- C9 witness: a vendor response with empty text yields the image-mode
fallback message, which is non-empty. -/
theorem response_text_nonempty_witness :
    (AnalysisResponse.mk "No analysis generated. Please try again."
        none).text ≠ "" :=
  response_text_nonempty.1 (Except.ok ⟨"ZGF0YQ==", "image/jpeg"⟩)
    (fun _ => Except.ok { text := some "", candidates := none }) _ rfl

/-- C7: `getPitchInstructions` is a pure total function; its output
contains the concise under-100-words instruction exactly when the length
is `SHORT` (the 150-200-words instruction otherwise) and the
High-Impact/Pain-Focused strategy block exactly when the tone is
`PAIN_FOCUSED` (the Standard Professional block otherwise); equal
arguments give equal outputs. -/
theorem getPitchInstructions_markers (tone : PitchTone) (len : PitchLength) :
    (containsStr (getPitchInstructions tone len) "under 100 words" = true ↔
      len = PitchLength.SHORT) ∧
    (containsStr (getPitchInstructions tone len) "150-200 words" = true ↔
      len = PitchLength.STANDARD) ∧
    (containsStr (getPitchInstructions tone len)
        "High-Impact / Pain-Focused" = true ↔
      tone = PitchTone.PAIN_FOCUSED) ∧
    (containsStr (getPitchInstructions tone len)
        "Standard Professional" = true ↔
      tone = PitchTone.STANDARD) ∧
    (∀ tone2 len2, tone = tone2 → len = len2 →
      getPitchInstructions tone len = getPitchInstructions tone2 len2) := by
  cases tone <;> cases len <;>
    exact ⟨by decide, by decide, by decide, by decide,
      fun t2 l2 ht hl => ht ▸ hl ▸ rfl⟩

/-- C7 witness: the SHORT length instruction occurs in a concrete
output. -/
theorem getPitchInstructions_markers_witness :
    containsStr (getPitchInstructions PitchTone.STANDARD PitchLength.SHORT)
      "under 100 words" = true :=
  (getPitchInstructions_markers PitchTone.STANDARD PitchLength.SHORT).1.mpr rfl

/-- C2: while `analysisState.isLoading` is true no submit entry point —
the three submit buttons or the Enter key in the search input — can
dispatch a request: every submit element is disabled, so the interaction
leaves the state unchanged and dispatches nothing.  This covers the
Enter-key path even though `handleSearchLeads` itself guards only on the
query being non-blank. -/
theorem no_second_request_while_loading (s : AppState) (e : SubmitEvent)
    (h : s.analysisState.isLoading = true) :
    uiSubmit s e = (s, none) := by
  have hen : submitEnabled s e = false := by
    cases e <;> simp [submitEnabled, h]
  simp [uiSubmit, hen]

/-- C2 witness: Enter in the search input during a load with a non-blank
query dispatches nothing. -/
theorem no_second_request_while_loading_witness :
    uiSubmit
      { baseAppState with
        mode := AppMode.SEARCH
        searchQuery := "Bakeries in Brooklyn"
        analysisState := loadingAnalysisState }
      SubmitEvent.searchEnter =
    ({ baseAppState with
        mode := AppMode.SEARCH
        searchQuery := "Bakeries in Brooklyn"
        analysisState := loadingAnalysisState }, none) :=
  no_second_request_while_loading _ SubmitEvent.searchEnter rfl

/-- C4 counterexample: in image mode with no selected image and a
whitespace-only business name, `handleAnalyzeImage` returns without
dispatching but does NOT set the validation error message, contrary to
the claim's "in image mode with a blank business name it additionally
sets the validation error message". -/
theorem validation_counterexample_no_image_blank_name :
    jsTrim ({ baseAppState with businessName := "   " }).businessName = "" ∧
    (handleAnalyzeImage { baseAppState with businessName := "   " }).2 = none ∧
    (handleAnalyzeImage
        { baseAppState with businessName := "   " }).1.analysisState.error ≠
      some businessNameValidationMsg := by
  refine ⟨by decide, rfl, by decide⟩

/-- C4 (amended): required-field validation happens before submission —
with no selected image, or (an image selected and) a blank business
name, or a blank search query, or a blank audit description, the
corresponding handler dispatches no request; the validation error
message is set when an image IS selected and the business name is
blank. -/
theorem required_field_validation (s : AppState) :
    (s.selectedImage = none → handleAnalyzeImage s = (s, none)) ∧
    (∀ img, s.selectedImage = some img → jsTrim s.businessName = "" →
      (handleAnalyzeImage s).2 = none ∧
      (handleAnalyzeImage s).1.analysisState.error =
        some businessNameValidationMsg) ∧
    (jsTrim s.searchQuery = "" → handleSearchLeads s = (s, none)) ∧
    (jsTrim s.auditDescription = "" → handleSelfAudit s = (s, none)) := by
  refine ⟨?_, ?_, ?_, ?_⟩
  · intro h
    simp [handleAnalyzeImage, h]
  · intro img h hname
    simp [handleAnalyzeImage, h, hname]
  · intro h
    simp [handleSearchLeads, h]
  · intro h
    simp [handleSelfAudit, h]

/-- C4 witness: a blank search query dispatches nothing, and a selected
image with a blank business name sets the validation message. -/
theorem required_field_validation_witness :
    handleSearchLeads { baseAppState with searchQuery := "   " } =
      ({ baseAppState with searchQuery := "   " }, none) ∧
    (handleAnalyzeImage
        { baseAppState with
          selectedImage := some sampleImageFile
          businessName := " " }).1.analysisState.error =
      some businessNameValidationMsg :=
  ⟨(required_field_validation _).2.2.1 (by decide),
   ((required_field_validation _).2.1 sampleImageFile rfl (by decide)).2⟩

/-- C8: when `handleAnalyzeImage` runs with a selected image and a
blank (empty or whitespace-only) business name, only the `error` field
of `analysisState` is updated; `isLoading`, `result` and
`groundingMetadata` keep their previous values. -/
theorem blank_name_frame_effect (s : AppState) (img : ImageFile)
    (h : s.selectedImage = some img) (hname : jsTrim s.businessName = "") :
    (handleAnalyzeImage s).1.analysisState.isLoading =
        s.analysisState.isLoading ∧
    (handleAnalyzeImage s).1.analysisState.result = s.analysisState.result ∧
    (handleAnalyzeImage s).1.analysisState.groundingMetadata =
        s.analysisState.groundingMetadata ∧
    (handleAnalyzeImage s).1.analysisState.error =
        some businessNameValidationMsg := by
  simp [handleAnalyzeImage, h, hname]

/-- C8 witness: an earlier successful result survives the validation
error. -/
theorem blank_name_frame_effect_witness :
    (handleAnalyzeImage
        { baseAppState with
          selectedImage := some sampleImageFile
          businessName := "  "
          analysisState :=
            { baseAnalysisState with
              result := some "old analysis" } }).1.analysisState.result =
      some "old analysis" :=
  (blank_name_frame_effect _ sampleImageFile rfl (by decide)).2.1.trans rfl

/-- C5 counterexample: with `isLoading` false, `error` the non-null empty
string and a non-null result, the component does NOT render the error
view (`if (error)` is JavaScript truthiness, so an empty-string error
falls through), contrary to the claim's "otherwise the error view when
error is non-null (regardless of result)". -/
theorem render_counterexample_empty_error :
    analysisResultView false (some "") (some "x") ≠ RenderView.errorView := by
  decide

/-- C5 (amended): the views are mutually exclusive and ordered — the
loading view when `isLoading`; otherwise the error view when `error` is
truthy (non-null and non-empty); otherwise the placeholder when `result`
is null or empty; otherwise the result view. -/
theorem analysisResultView_priority (isLoading : Bool)
    (error result : Option String) :
    (isLoading = true →
      analysisResultView isLoading error result = RenderView.loading) ∧
    (isLoading = false → strTruthy error = true →
      analysisResultView isLoading error result = RenderView.errorView) ∧
    (isLoading = false → strTruthy error = false → strTruthy result = false →
      analysisResultView isLoading error result = RenderView.placeholder) ∧
    (isLoading = false → strTruthy error = false → strTruthy result = true →
      analysisResultView isLoading error result = RenderView.resultView) :=
  ⟨fun h => by simp [analysisResultView, h],
   fun h he => by simp [analysisResultView, h, he],
   fun h he hr => by simp [analysisResultView, h, he, hr],
   fun h he hr => by simp [analysisResultView, h, he, hr]⟩

/-- C5 witness: loading wins over an error and a result. -/
theorem analysisResultView_priority_witness :
    analysisResultView true (some "boom") (some "report") =
      RenderView.loading :=
  (analysisResultView_priority true (some "boom") (some "report")).1 rfl

/-- The lead-list rows of the search-mode CSV export, as the claim
states them: exactly one row per map chunk, in order. -/
def searchLeadRows : List GroundingChunk → String
  | [] => ""
  | c :: cs =>
    match c.maps with
    | some m => mapChunkRow m ++ "\n" ++ searchLeadRows cs
    | none => searchLeadRows cs

/-- The accumulation loop of `handleExportCSV` produces the header
followed by one row per map chunk. -/
theorem exportFold_eq (chunks : List GroundingChunk) (acc : String) :
    chunks.foldl
      (fun acc c =>
        match c.maps with
        | some m => acc ++ mapChunkRow m ++ "\n"
        | none => acc) acc
      = acc ++ searchLeadRows chunks := by
  induction chunks generalizing acc with
  | nil => simp [searchLeadRows]
  | cons c cs ih =>
    cases hm : c.maps with
    | none => simp [searchLeadRows, hm, ih]
    | some m =>
      simp only [List.foldl_cons, hm, searchLeadRows]
      rw [ih]
      simp [String.append_assoc]

/-- C6 counterexample: with a non-null but empty result string the
export produces no CSV at all (`if (!result) return;` is JavaScript
truthiness), contrary to the claim's "for every non-null result ...
produces the header line ...". -/
theorem exportCSV_counterexample_empty_result :
    handleExportCSV AppMode.SEARCH (some sampleGroundingMetadata) (some "")
      "2026-10-12T00:00:00.000Z" = none := rfl

/-- C6 (amended): for every non-null, non-empty result — in SEARCH mode
with at least one map chunk in the grounding metadata the export is the
lead-list header followed by exactly one row per map chunk (title and
address double-quoted with embedded quotes doubled); in every other case
it is the generic header followed by a single row with the ISO
timestamp, the mode, and the double-quoted result text. -/
theorem handleExportCSV_format (mode : AppMode)
    (gm : Option GroundingMetadata) (r nowISO : String) (hr : r ≠ "") :
    (mode = AppMode.SEARCH → hasMapData gm = true →
      handleExportCSV mode gm (some r) nowISO =
        some ("Business Name,Address,Google Maps Link\n" ++
          searchLeadRows
            ((gm.bind GroundingMetadata.groundingChunks).getD []))) ∧
    ((mode = AppMode.SEARCH → hasMapData gm = false) →
      handleExportCSV mode gm (some r) nowISO =
        some ("Date,Type,Analysis Content\n" ++ nowISO ++ "," ++
          modeToString mode ++ "," ++ csvEscape r)) := by
  constructor
  · intro hm hmd
    subst hm
    simp [handleExportCSV, hr, hmd, exportFold_eq]
  · intro hother
    by_cases hm : mode = AppMode.SEARCH
    · have hmd := hother hm
      subst hm
      simp [handleExportCSV, hr, hmd]
    · simp [handleExportCSV, hr, hm]

/-- C6 witness: a concrete search export with one map chunk. -/
theorem handleExportCSV_format_witness :
    handleExportCSV AppMode.SEARCH (some sampleGroundingMetadata)
      (some "lead report") "2026-10-12T00:00:00.000Z" =
    some ("Business Name,Address,Google Maps Link\n" ++
      searchLeadRows (((some sampleGroundingMetadata).bind
        GroundingMetadata.groundingChunks).getD [])) :=
  (handleExportCSV_format AppMode.SEARCH (some sampleGroundingMetadata)
    "lead report" "2026-10-12T00:00:00.000Z" (by decide)).1 rfl rfl

/-- C10: voice dictation only extends the audit description — the
previous value is a prefix of the new one; the result depends only on
the concatenated final transcripts (interim transcripts are discarded);
a non-empty final transcript is appended behind exactly one separating
space when the previous text is non-empty and does not already end in a
space, and with no separator otherwise. -/
theorem speechOnResult_extends (prev : String) (i : Nat)
    (results : List SpeechResult) :
    (∃ suffix, speechOnResult prev i results = prev ++ suffix) ∧
    (speechOnResult prev i results =
      speechOnResult prev 0 [⟨true, finalTranscriptOf (results.drop i)⟩]) ∧
    (finalTranscriptOf (results.drop i) ≠ "" → 0 < prev.length →
      endsWithChar prev ' ' = false →
      speechOnResult prev i results =
        prev ++ " " ++ finalTranscriptOf (results.drop i)) ∧
    (finalTranscriptOf (results.drop i) ≠ "" →
      (prev = "" ∨ endsWithChar prev ' ' = true) →
      speechOnResult prev i results =
        prev ++ finalTranscriptOf (results.drop i)) := by
  refine ⟨?_, ?_, ?_, ?_⟩
  · by_cases hf : finalTranscriptOf (results.drop i) = ""
    · exact ⟨"", by simp [speechOnResult, hf]⟩
    · exact ⟨(if decide (0 < prev.length) && !(endsWithChar prev ' ')
          then " " else "") ++ finalTranscriptOf (results.drop i),
        by simp [speechOnResult, hf, String.append_assoc]⟩
  · simp [speechOnResult, finalTranscriptOf]
  · intro hf hlen hends
    simp [speechOnResult, hf, hlen, hends]
  · intro hf hpe
    rcases hpe with hpe | hpe
    · subst hpe
      simp [speechOnResult, hf]
    · simp [speechOnResult, hf, hpe]

/-- C10 witness: a final transcript is appended behind one space; the
interim transcript is discarded. -/
theorem speechOnResult_extends_witness :
    speechOnResult "my business" 0
      [SpeechResult.mk false "ignored interim",
       SpeechResult.mk true "uses paper logs"] =
      "my business" ++ " " ++
        finalTranscriptOf
          ([SpeechResult.mk false "ignored interim",
            SpeechResult.mk true "uses paper logs"].drop 0) :=
  (speechOnResult_extends "my business" 0
    [SpeechResult.mk false "ignored interim",
     SpeechResult.mk true "uses paper logs"]).2.2.1
    (by decide) (by decide) (by decide)
